import Mathlib

/-!
Verification of `docs/conf.py` of the `international-k-matrix-day` repository.

The only executable logic in the repository is the helper

```python
def copy_julia_html_page() -> list[str]:
    html_page = Path("K-matrix.html")
    if html_page.exists():
        static_path = Path("_static")
        shutil.copy(html_page, static_path / html_page)
        return [str(static_path / html_page)]
    return []
```

which is invoked once at module level (line 17, discarding its return value),
together with declarative Sphinx configuration, of which only
`html_static_path = ["_static"]` interacts with the helper's purpose.

We embed the function over an explicit filesystem state.  Paths are lists of
components (mirroring `pathlib.Path.parts` for relative paths); the filesystem
is an association list from paths to nodes.  A node is a regular file with a
byte content and a writable bit, or a directory with a writable bit.  The
working directory (the empty path) always exists and is writable.

`shutil.copy(src, dst)` is embedded from its documented CPython behaviour:
  * if `dst` names an existing directory, the copy goes to `dst/basename(src)`;
  * `copyfile` opens `src` for reading (FileNotFoundError if absent,
    IsADirectoryError if a directory), then opens the resolved destination for
    writing (IsADirectoryError if it is a directory; PermissionError if it is
    an existing non-writable file; for a fresh file: FileNotFoundError if the
    parent is absent, NotADirectoryError if the parent is a file,
    PermissionError if the parent directory is not writable);
  * `copymode` then copies the permission bit of `src` onto the new `dst`.
Not modelled: symbolic/hard links, the `SameFileError` check (our two fixed
paths are distinct), read permissions, special files and concurrent mutation;
none of these are reachable or distinguishable in the states the claims range
over.  Machine-level byte values are plain naturals (contents are opaque data,
no arithmetic is performed on them).
-/

/-- A relative filesystem path, as its list of components
(`Path("_static") / Path("K-matrix.html")` ↦ `["_static", "K-matrix.html"]`). -/
abbrev PathC := List String

/-- A filesystem node: a regular file with byte content and writable bit,
or a directory with a writable bit. -/
inductive Node where
  | file (content : List Nat) (w : Bool)
  | dir (w : Bool)
  deriving DecidableEq, Repr

/-- A filesystem state: an association list from paths to nodes.
The working directory (path `[]`) is implicitly an existing writable
directory and is not stored. -/
structure FS where
  entries : List (PathC × Node)
  deriving DecidableEq, Repr

/-- First entry stored at path `p`, if any. -/
def FS.lookup (fs : FS) (p : PathC) : Option Node :=
  (fs.entries.find? (fun e => e.1 == p)).map (fun e => e.2)

/-- `os.stat`: the node at `p`; the working directory `[]` is always an
existing writable directory. -/
def FS.stat (fs : FS) (p : PathC) : Option Node :=
  if p = [] then some (Node.dir true) else fs.lookup p

/-- `Path.exists()`: true for files and directories alike. -/
def FS.pathExists (fs : FS) (p : PathC) : Bool :=
  (fs.stat p).isSome

/-- `os.path.isdir`. -/
def FS.isDir (fs : FS) (p : PathC) : Bool :=
  match fs.stat p with
  | some (Node.dir _) => true
  | _ => false

/-- Content of the regular file at `p`, if `p` is a regular file. -/
def FS.content (fs : FS) (p : PathC) : Option (List Nat) :=
  match fs.stat p with
  | some (Node.file c _) => some c
  | _ => none

/-- Store node `n` at path `p`, replacing any previous entry. -/
def FS.write (fs : FS) (p : PathC) (n : Node) : FS :=
  ⟨(p, n) :: fs.entries.filter (fun e => !(e.1 == p))⟩

deriving instance DecidableEq for Except

/-- The errors `shutil.copy` can raise in the modelled fragment. -/
inductive FsError where
  | fileNotFound
  | isADirectory
  | notADirectory
  | permissionDenied
  deriving DecidableEq, Repr

/-- The destination actually written by `shutil.copy(src, dst)`:
if `dst` is an existing directory the copy goes to `dst/basename(src)`,
otherwise to `dst` itself. -/
def shutilCopyDst (fs : FS) (src dst : PathC) : PathC :=
  if fs.isDir dst then dst ++ [src.getLastD ""] else dst

/-- `shutil.copy(src, dst)`: `copyfile` followed by `copymode` (the written
file receives the source's permission bit).  Check order follows CPython:
the source is opened before the destination. -/
def shutilCopy (fs : FS) (src dst : PathC) : Except FsError FS :=
  match fs.stat src with
  | none => Except.error FsError.fileNotFound
  | some (Node.dir _) => Except.error FsError.isADirectory
  | some (Node.file c ws) =>
    match fs.stat (shutilCopyDst fs src dst) with
    | some (Node.dir _) => Except.error FsError.isADirectory
    | some (Node.file _ wd) =>
        if wd then Except.ok (fs.write (shutilCopyDst fs src dst) (Node.file c ws))
        else Except.error FsError.permissionDenied
    | none =>
        match fs.stat (shutilCopyDst fs src dst).dropLast with
        | some (Node.dir w) =>
            if w then Except.ok (fs.write (shutilCopyDst fs src dst) (Node.file c ws))
            else Except.error FsError.permissionDenied
        | some (Node.file _ _) => Except.error FsError.notADirectory
        | none => Except.error FsError.fileNotFound

/-- `Path("K-matrix.html")`. -/
def kMatrixHtml : PathC := ["K-matrix.html"]

/-- `Path("_static")`. -/
def staticPath : PathC := ["_static"]

/-- `static_path / html_page`. -/
def destPath : PathC := staticPath ++ kMatrixHtml

/-- `str(...)` on a relative `Path`: components joined by `/`. -/
def pathStr (p : PathC) : String :=
  String.intercalate "/" p

/-- `copy_julia_html_page` (docs/conf.py, lines 5–11), as a function of the
filesystem state.  A raised exception is an `Except.error`; a normal return
carries the returned list and the new filesystem state. -/
def copy_julia_html_page (fs : FS) : Except FsError (List String × FS) :=
  if fs.pathExists kMatrixHtml = true then
    match shutilCopy fs kMatrixHtml destPath with
    | Except.ok fs' => Except.ok ([pathStr destPath], fs')
    | Except.error e => Except.error e
  else
    Except.ok ([], fs)

/-- `html_static_path = ["_static"]` (docs/conf.py, line 36). -/
def html_static_path : List String := ["_static"]

/-- Module-level statement `copy_julia_html_page()` (docs/conf.py, line 17):
the returned list is discarded, only the filesystem effect (or the raised
exception) remains. -/
def conf_module_call (fs : FS) : Except FsError FS :=
  (copy_julia_html_page fs).map Prod.snd

/-- Well-formedness of a filesystem state as real filesystems guarantee it:
no entry at the working directory itself, and every proper ancestor of an
entry is an existing directory. -/
def FS.WF (fs : FS) : Prop :=
  ∀ e ∈ fs.entries,
    e.1 ≠ [] ∧ ∀ k, k < e.1.length → 0 < k → fs.isDir (e.1.take k) = true

instance FS.WFDecidable (fs : FS) : Decidable fs.WF :=
  inferInstanceAs (Decidable (∀ e ∈ fs.entries,
    e.1 ≠ [] ∧ ∀ k, k < e.1.length → 0 < k → fs.isDir (e.1.take k) = true))

/-! ### Helper lemmas about the filesystem model -/

theorem find_key_filter_ne (l : List (PathC × Node)) (p q : PathC) (hq : q ≠ p) :
    (l.filter (fun e => !(e.1 == p))).find? (fun e => e.1 == q)
      = l.find? (fun e => e.1 == q) := by
  induction l with
  | nil => rfl
  | cons a t ih =>
    by_cases hap : a.1 = p
    · have h1 : (a.1 == p) = true := beq_iff_eq.mpr hap
      have h2 : (a.1 == q) = false := by
        rw [beq_eq_false_iff_ne, hap]
        exact fun h => hq h.symm
      simp [List.filter_cons, List.find?_cons, h1, h2, ih]
    · have h1 : (a.1 == p) = false := beq_eq_false_iff_ne.mpr hap
      by_cases haq : a.1 = q
      · have h2 : (a.1 == q) = true := beq_iff_eq.mpr haq
        simp [List.filter_cons, List.find?_cons, h1, h2]
      · have h2 : (a.1 == q) = false := beq_eq_false_iff_ne.mpr haq
        simp [List.filter_cons, List.find?_cons, h1, h2, ih]

theorem filter_idem {α : Type} (pr : α → Bool) (l : List α) :
    (l.filter pr).filter pr = l.filter pr := by
  induction l with
  | nil => rfl
  | cons a t ih =>
    by_cases h : pr a = true <;> simp [List.filter_cons, h, ih]

theorem FS.stat_write_self (fs : FS) (p : PathC) (n : Node) (hp : p ≠ []) :
    (fs.write p n).stat p = some n := by
  simp [FS.stat, FS.write, FS.lookup, hp, List.find?_cons]

theorem FS.stat_write_ne (fs : FS) (p q : PathC) (n : Node) (h : q ≠ p) :
    (fs.write p n).stat q = fs.stat q := by
  by_cases hq : q = []
  · simp [FS.stat, hq]
  · have h2 : (p == q) = false := beq_eq_false_iff_ne.mpr (fun hh => h hh.symm)
    simp [FS.stat, FS.write, FS.lookup, hq, List.find?_cons, h2,
      find_key_filter_ne fs.entries p q h]

theorem FS.write_write (fs : FS) (p : PathC) (n n' : Node) :
    (fs.write p n).write p n' = fs.write p n' := by
  simp [FS.write, List.filter_cons, filter_idem]

theorem copyDst_ne_nil (fs : FS) : shutilCopyDst fs kMatrixHtml destPath ≠ [] := by
  unfold shutilCopyDst
  split
  · decide
  · decide

theorem copyDst_ne_src (fs : FS) : kMatrixHtml ≠ shutilCopyDst fs kMatrixHtml destPath := by
  unfold shutilCopyDst
  split
  · decide
  · decide

/-- Shape of a successful `shutil.copy`: the only change is a single file
written at the resolved destination. -/
theorem shutilCopy_ok (fs : FS) (s d : PathC) (fs' : FS)
    (h : shutilCopy fs s d = Except.ok fs') :
    ∃ c w, fs' = fs.write (shutilCopyDst fs s d) (Node.file c w) := by
  unfold shutilCopy at h
  split at h
  · simp at h
  · simp at h
  · split at h
    · simp at h
    · split at h
      · exact ⟨_, _, (by simpa using h.symm)⟩
      · simp at h
    · split at h
      · split at h
        · exact ⟨_, _, (by simpa using h.symm)⟩
        · simp at h
      · simp at h
      · simp at h

/-- When the source is a regular file, the destination directory `_static`
exists and is writable, and the destination path is absent or a writable
regular file, `shutil.copy` succeeds and writes the source bytes (and its
permission bit) at `_static/K-matrix.html`. -/
theorem copy_step_success (fs : FS) (c : List Nat) (ws : Bool)
    (hs : fs.stat kMatrixHtml = some (Node.file c ws))
    (hd : fs.stat staticPath = some (Node.dir true))
    (hdst : fs.stat destPath = none ∨ ∃ d, fs.stat destPath = some (Node.file d true)) :
    shutilCopy fs kMatrixHtml destPath = Except.ok (fs.write destPath (Node.file c ws)) := by
  have hdir : fs.isDir destPath = false := by
    rcases hdst with h | ⟨d, h⟩ <;> simp [FS.isDir, h]
  have hdst1 : shutilCopyDst fs kMatrixHtml destPath = destPath := by
    simp [shutilCopyDst, hdir]
  have hpar : destPath.dropLast = staticPath := rfl
  rcases hdst with h | ⟨d, h⟩
  · simp [shutilCopy, hdst1, hs, h, hpar, hd]
  · simp [shutilCopy, hdst1, hs, h]

/-- Successful run of the whole function in the present-file case. -/
theorem copy_julia_success (fs : FS) (c : List Nat) (ws : Bool)
    (hs : fs.stat kMatrixHtml = some (Node.file c ws))
    (hd : fs.stat staticPath = some (Node.dir true))
    (hdst : fs.stat destPath = none ∨ ∃ d, fs.stat destPath = some (Node.file d true)) :
    copy_julia_html_page fs
      = Except.ok (["_static/K-matrix.html"], fs.write destPath (Node.file c ws)) := by
  have hex : fs.pathExists kMatrixHtml = true := by simp [FS.pathExists, hs]
  have hstr : pathStr destPath = "_static/K-matrix.html" := rfl
  simp [copy_julia_html_page, hex, copy_step_success fs c ws hs hd hdst, hstr]

/-! ### Claim theorems -/

/-- C1 (amended): if `K-matrix.html` is a regular file, the destination
directory `_static` exists and is writable, and the destination path
`_static/K-matrix.html` is absent or itself a writable regular file, then
`copy_julia_html_page` returns exactly `["_static/K-matrix.html"]` and
afterwards the destination file's bytes equal the source file's bytes. -/
theorem C1_copy_present_success (fs : FS) (c : List Nat) (ws : Bool)
    (hs : fs.stat kMatrixHtml = some (Node.file c ws))
    (hd : fs.stat staticPath = some (Node.dir true))
    (hdst : fs.stat destPath = none ∨ ∃ d, fs.stat destPath = some (Node.file d true)) :
    copy_julia_html_page fs
      = Except.ok (["_static/K-matrix.html"], fs.write destPath (Node.file c ws))
    ∧ (fs.write destPath (Node.file c ws)).content destPath = fs.content kMatrixHtml := by
  refine ⟨copy_julia_success fs c ws hs hd hdst, ?_⟩
  have h1 : (fs.write destPath (Node.file c ws)).stat destPath = some (Node.file c ws) :=
    FS.stat_write_self fs destPath _ (by decide)
  simp [FS.content, h1, hs]

/-- Filesystem state for the C1 witness: the artifact file and an empty
writable `_static` directory. -/
def fsC1w : FS := ⟨[(kMatrixHtml, Node.file [104, 105] true), (staticPath, Node.dir true)]⟩

/-- Witness for C1: the amended theorem applied to a concrete state. -/
theorem C1_copy_present_success_witness :
    fsC1w.stat kMatrixHtml = some (Node.file [104, 105] true)
    ∧ fsC1w.stat staticPath = some (Node.dir true)
    ∧ (copy_julia_html_page fsC1w
        = Except.ok (["_static/K-matrix.html"], fsC1w.write destPath (Node.file [104, 105] true))
      ∧ (fsC1w.write destPath (Node.file [104, 105] true)).content destPath
          = fsC1w.content kMatrixHtml) :=
  ⟨by decide, by decide,
    C1_copy_present_success fsC1w [104, 105] true (by decide) (by decide) (Or.inl (by decide))⟩

/-- Filesystem state refuting C1 as stated: the artifact file exists, `_static`
exists and is writable, but `_static/K-matrix.html` is a pre-existing
non-writable file. -/
def fsC1x : FS :=
  ⟨[(kMatrixHtml, Node.file [104] true), (staticPath, Node.dir true),
    (destPath, Node.file [] false)]⟩

/-- Counterexample to C1 as stated: in `fsC1x` all of the claim's hypotheses
hold (artifact file present, `_static` an existing writable directory), yet
the call raises `PermissionError` (from overwriting the read-only destination
file) instead of returning the one-element list. -/
theorem C1_counterexample :
    fsC1x.stat kMatrixHtml = some (Node.file [104] true)
    ∧ fsC1x.stat staticPath = some (Node.dir true)
    ∧ copy_julia_html_page fsC1x = Except.error FsError.permissionDenied := by decide

/-- C2 (confirmed): when `K-matrix.html` is absent, the function writes
nothing (the filesystem state is returned unchanged) and returns `[]`. -/
theorem C2_absent_noop (fs : FS)
    (h : fs.pathExists kMatrixHtml = false) :
    copy_julia_html_page fs = Except.ok ([], fs) := by
  simp [copy_julia_html_page, h]

/-- Witness for C2 at the empty filesystem. -/
theorem C2_absent_noop_witness :
    FS.pathExists ⟨[]⟩ kMatrixHtml = false
    ∧ copy_julia_html_page ⟨[]⟩ = Except.ok ([], ⟨[]⟩) :=
  ⟨by decide, C2_absent_noop ⟨[]⟩ (by decide)⟩

/-- Filesystem state for the C3 counterexample: a copy actually occurs. -/
def fsC3x : FS := ⟨[(kMatrixHtml, Node.file [104] true), (staticPath, Node.dir true)]⟩

/-- Counterexample to C3 as stated: in `fsC3x` a copy occurs and the function
returns `["_static/K-matrix.html"]`, yet the static-files configuration
`html_static_path` does not contain that returned path (the caller discards
the return value; line 36 sets `html_static_path = ["_static"]`). -/
theorem C3_counterexample :
    (copy_julia_html_page fsC3x).toOption.map Prod.fst = some ["_static/K-matrix.html"]
    ∧ "_static/K-matrix.html" ∉ html_static_path := by decide

/-- C3 (amended): the module-level caller discards the returned list — only
the filesystem effect remains; the static-files configuration is the fixed
list `["_static"]`, which does not contain the returned destination path but
does contain the directory `_static` under which the copy is placed (so the
copied file is still exposed statically via the directory entry). -/
theorem C3_caller_discards :
    html_static_path = [pathStr staticPath]
    ∧ pathStr destPath ∉ html_static_path
    ∧ destPath = staticPath ++ kMatrixHtml
    ∧ ∀ fs, conf_module_call fs = (copy_julia_html_page fs).map Prod.snd := by
  exact ⟨rfl, by decide, rfl, fun fs => rfl⟩

/-- C4 (amended): when `K-matrix.html` is a *writable* regular file, `_static`
exists and is writable, and `_static/K-matrix.html` is absent or a writable
regular file, two successive invocations return the same one-element list and
the second invocation leaves the filesystem — in particular the destination
file's content — exactly as the first left it. -/
theorem C4_idempotent_on_success (fs : FS) (c : List Nat)
    (hs : fs.stat kMatrixHtml = some (Node.file c true))
    (hd : fs.stat staticPath = some (Node.dir true))
    (hdst : fs.stat destPath = none ∨ ∃ d, fs.stat destPath = some (Node.file d true)) :
    ∃ fs1, copy_julia_html_page fs = Except.ok (["_static/K-matrix.html"], fs1)
      ∧ copy_julia_html_page fs1 = Except.ok (["_static/K-matrix.html"], fs1)
      ∧ fs1.content destPath = some c := by
  refine ⟨fs.write destPath (Node.file c true),
    copy_julia_success fs c true hs hd hdst, ?_, ?_⟩
  · have h1 := copy_julia_success (fs.write destPath (Node.file c true)) c true
      (by rw [FS.stat_write_ne fs destPath kMatrixHtml _ (by decide)]; exact hs)
      (by rw [FS.stat_write_ne fs destPath staticPath _ (by decide)]; exact hd)
      (Or.inr ⟨c, FS.stat_write_self fs destPath _ (by decide)⟩)
    rwa [FS.write_write] at h1
  · simp [FS.content, FS.stat_write_self fs destPath _ (by decide : destPath ≠ [])]

/-- Filesystem state for the C4 witness. -/
def fsC4w : FS := ⟨[(kMatrixHtml, Node.file [1, 2] true), (staticPath, Node.dir true)]⟩

/-- Witness for C4: the amended idempotence theorem at a concrete state. -/
theorem C4_idempotent_on_success_witness :
    fsC4w.stat kMatrixHtml = some (Node.file [1, 2] true)
    ∧ fsC4w.stat staticPath = some (Node.dir true)
    ∧ ∃ fs1, copy_julia_html_page fsC4w = Except.ok (["_static/K-matrix.html"], fs1)
        ∧ copy_julia_html_page fs1 = Except.ok (["_static/K-matrix.html"], fs1)
        ∧ fs1.content destPath = some [1, 2] :=
  ⟨by decide, by decide,
    C4_idempotent_on_success fsC4w [1, 2] (by decide) (by decide) (Or.inl (by decide))⟩

/-- Filesystem state refuting C4 as stated: a *read-only* artifact file and a
writable empty `_static`. -/
def fsC4x : FS := ⟨[(kMatrixHtml, Node.file [1] false), (staticPath, Node.dir true)]⟩

/-- Counterexample to C4 as stated: in `fsC4x` the artifact is present and
`_static` exists and is writable, the first invocation succeeds — but
`shutil.copy`'s `copymode` step makes the copy read-only like its source, so
the second invocation raises `PermissionError` instead of returning the same
list. -/
theorem C4_counterexample :
    fsC4x.stat kMatrixHtml = some (Node.file [1] false)
    ∧ fsC4x.stat staticPath = some (Node.dir true)
    ∧ (copy_julia_html_page fsC4x).toOption.map Prod.fst = some ["_static/K-matrix.html"]
    ∧ ((copy_julia_html_page fsC4x).toOption.bind
        fun r => (copy_julia_html_page r.2).toOption) = none := by decide

/-- C5 (confirmed): on any well-formed filesystem state where `K-matrix.html`
is present but the destination directory `_static` does not exist, the
function raises an error instead of returning normally. -/
theorem C5_missing_destdir_fails (fs : FS)
    (hwf : fs.WF)
    (hsrc : fs.pathExists kMatrixHtml = true)
    (hd : fs.pathExists staticPath = false) :
    ∃ e, copy_julia_html_page fs = Except.error e := by
  have hdstat : fs.stat staticPath = none := by
    cases hst : fs.stat staticPath with
    | none => rfl
    | some a => simp [FS.pathExists, hst] at hd
  have hdest : fs.stat destPath = none := by
    cases hst : fs.stat destPath with
    | none => rfl
    | some n =>
      exfalso
      have hlk : fs.lookup destPath = some n := by
        rw [FS.stat] at hst
        simpa using hst
      rw [FS.lookup] at hlk
      cases hfind : fs.entries.find? (fun e => e.1 == destPath) with
      | none => rw [hfind] at hlk; simp at hlk
      | some en =>
        have hmem : en ∈ fs.entries := List.mem_of_find?_eq_some hfind
        have hkey : en.1 = destPath := by
          have hp := List.find?_some hfind
          simpa using hp
        have h1 := (hwf en hmem).2 1 (by rw [hkey]; decide) (by decide)
        rw [hkey] at h1
        have htake : destPath.take 1 = staticPath := rfl
        rw [htake, FS.isDir, hdstat] at h1
        simp at h1
  have hdir : fs.isDir destPath = false := by simp [FS.isDir, hdest]
  have hdst1 : shutilCopyDst fs kMatrixHtml destPath = destPath := by
    simp [shutilCopyDst, hdir]
  have hpar : destPath.dropLast = staticPath := rfl
  cases hsstat : fs.stat kMatrixHtml with
  | none => simp [FS.pathExists, hsstat] at hsrc
  | some n =>
    cases n with
    | dir w =>
      exact ⟨FsError.isADirectory, by simp [copy_julia_html_page, hsrc, shutilCopy, hsstat]⟩
    | file c w =>
      refine ⟨FsError.fileNotFound, ?_⟩
      have hcopy : shutilCopy fs kMatrixHtml destPath = Except.error FsError.fileNotFound := by
        simp [shutilCopy, hdst1, hsstat, hdest, hpar, hdstat]
      simp [copy_julia_html_page, hsrc, hcopy]

/-- Filesystem state for the C5 witness: artifact present, no `_static`. -/
def fsC5w : FS := ⟨[(kMatrixHtml, Node.file [3] true)]⟩

/-- Witness for C5 at a concrete state. -/
theorem C5_missing_destdir_fails_witness :
    fsC5w.WF
    ∧ fsC5w.pathExists kMatrixHtml = true
    ∧ fsC5w.pathExists staticPath = false
    ∧ ∃ e, copy_julia_html_page fsC5w = Except.error e :=
  ⟨by decide, by decide, by decide,
    C5_missing_destdir_fails fsC5w (by decide) (by decide) (by decide)⟩

/-- C6 (confirmed): whenever the function reaches the copy step (the artifact
exists) and that step fails with some error, the function returns that very
error — nothing is caught, wrapped, retried or transformed. -/
theorem C6_error_propagation (fs : FS) (e : FsError)
    (hsrc : fs.pathExists kMatrixHtml = true)
    (hcopy : shutilCopy fs kMatrixHtml destPath = Except.error e) :
    copy_julia_html_page fs = Except.error e := by
  simp [copy_julia_html_page, hsrc, hcopy]

/-- Filesystem state for the C6 witness: artifact present, no `_static`, so
the copy step fails with `FileNotFoundError`. -/
def fsC6w : FS := ⟨[(kMatrixHtml, Node.file [5] true)]⟩

/-- Witness for C6 at a concrete state. -/
theorem C6_error_propagation_witness :
    fsC6w.pathExists kMatrixHtml = true
    ∧ shutilCopy fsC6w kMatrixHtml destPath = Except.error FsError.fileNotFound
    ∧ copy_julia_html_page fsC6w = Except.error FsError.fileNotFound :=
  ⟨by decide, by decide, C6_error_propagation fsC6w FsError.fileNotFound (by decide) (by decide)⟩

/-- The concrete content `<html></html>` of the spec's scenario, as bytes. -/
def htmlBytes : List Nat := [60, 104, 116, 109, 108, 62, 60, 47, 104, 116, 109, 108, 62]

/-- Filesystem state of the spec's concrete scenario: the artifact with
content `<html></html>` and an empty writable `_static` directory. -/
def fsC7 : FS := ⟨[(kMatrixHtml, Node.file htmlBytes true), (staticPath, Node.dir true)]⟩

/-- Counterexample to C7 as stated: `<html></html>` is 13 bytes, not 10, so
the copied file's content in the spec's scenario has length 13; the claimed
"10-byte" size is impossible for this content. -/
theorem C7_counterexample :
    "<html></html>".data.map Char.toNat = htmlBytes
    ∧ ((copy_julia_html_page fsC7).toOption.bind fun r => r.2.content destPath)
        = some htmlBytes
    ∧ htmlBytes.length ≠ 10 := by decide

/-- C7 (amended): in the spec's concrete scenario — `K-matrix.html` contains
the 13 bytes `<html></html>`, `_static/` exists and is empty — one invocation
creates `_static/K-matrix.html` with identical 13-byte content and returns
exactly `["_static/K-matrix.html"]`. -/
theorem C7_concrete_scenario :
    htmlBytes.length = 13
    ∧ copy_julia_html_page fsC7
        = Except.ok (["_static/K-matrix.html"], fsC7.write destPath (Node.file htmlBytes true))
    ∧ (fsC7.write destPath (Node.file htmlBytes true)).content destPath = some htmlBytes
    ∧ (fsC7.write destPath (Node.file htmlBytes true)).content kMatrixHtml = some htmlBytes := by
  decide

/-- Filesystem state refuting C8 as stated: the destination *path*
`_static/K-matrix.html` is itself an existing directory. -/
def fsC8x : FS :=
  ⟨[(kMatrixHtml, Node.file [9] true), (staticPath, Node.dir true), (destPath, Node.dir true)]⟩

/-- The path `_static/K-matrix.html/K-matrix.html`. -/
def nestedDest : PathC := destPath ++ ["K-matrix.html"]

/-- Counterexample to C8 as stated: when the destination path is an existing
directory, `shutil.copy` redirects into it, so the single write lands at
`_static/K-matrix.html/K-matrix.html` — a path other than the destination
file named by the claim. -/
theorem C8_counterexample :
    fsC8x.stat destPath = some (Node.dir true)
    ∧ fsC8x.stat nestedDest = none
    ∧ (copy_julia_html_page fsC8x).toOption.map (fun r => r.2.stat nestedDest)
        = some (some (Node.file [9] true))
    ∧ nestedDest ≠ destPath := by decide

/-- C8 (amended): on every normal return, the filesystem differs from the
initial state at most at the single resolved copy target — the destination
path, or, when that path is an existing directory, the filename-preserving
path directly inside it; no path is ever deleted; the source artifact's node
is unchanged; and in the absent-file case the state is entirely unchanged. -/
theorem C8_frame (fs : FS) (l : List String) (fs' : FS)
    (h : copy_julia_html_page fs = Except.ok (l, fs')) :
    (∀ p, p ≠ shutilCopyDst fs kMatrixHtml destPath → fs'.stat p = fs.stat p)
    ∧ (∀ p, (fs.stat p).isSome = true → (fs'.stat p).isSome = true)
    ∧ fs'.stat kMatrixHtml = fs.stat kMatrixHtml
    ∧ (fs.pathExists kMatrixHtml = false → fs' = fs) := by
  by_cases hex : fs.pathExists kMatrixHtml = true
  · rcases hc : shutilCopy fs kMatrixHtml destPath with e | fs2
    · rw [copy_julia_html_page, hex] at h
      simp [hc] at h
    · rw [copy_julia_html_page, hex] at h
      simp only [if_true, hc, Except.ok.injEq, Prod.mk.injEq] at h
      obtain ⟨-, hfs⟩ := h
      obtain ⟨c, w, rfl⟩ := shutilCopy_ok fs kMatrixHtml destPath fs2 hc
      subst hfs
      refine ⟨?_, ?_, ?_, ?_⟩
      · exact fun p hp => FS.stat_write_ne fs _ p _ hp
      · intro p hp
        by_cases hpt : p = shutilCopyDst fs kMatrixHtml destPath
        · subst hpt
          rw [FS.stat_write_self fs _ _ (copyDst_ne_nil fs)]
          rfl
        · rw [FS.stat_write_ne fs _ p _ hpt]
          exact hp
      · exact FS.stat_write_ne fs _ kMatrixHtml _ (copyDst_ne_src fs)
      · intro hfalse
        rw [hex] at hfalse
        cases hfalse
  · have hex' : fs.pathExists kMatrixHtml = false := by
      cases hb : fs.pathExists kMatrixHtml
      · rfl
      · exact absurd hb hex
    rw [copy_julia_html_page, hex'] at h
    simp only [Bool.false_eq_true, if_false, Except.ok.injEq, Prod.mk.injEq] at h
    obtain ⟨-, hfs⟩ := h
    subst hfs
    exact ⟨fun p _ => rfl, fun p hp => hp, rfl, fun _ => rfl⟩

/-- Filesystem state for the C8 witness. -/
def fsC8w : FS := ⟨[(kMatrixHtml, Node.file [7] true), (staticPath, Node.dir true)]⟩

/-- Witness for C8: the frame theorem applied to a concrete successful run. -/
theorem C8_frame_witness :
    (∀ p, p ≠ shutilCopyDst fsC8w kMatrixHtml destPath →
        (fsC8w.write destPath (Node.file [7] true)).stat p = fsC8w.stat p)
    ∧ (∀ p, (fsC8w.stat p).isSome = true →
        ((fsC8w.write destPath (Node.file [7] true)).stat p).isSome = true)
    ∧ (fsC8w.write destPath (Node.file [7] true)).stat kMatrixHtml = fsC8w.stat kMatrixHtml
    ∧ (fsC8w.pathExists kMatrixHtml = false → fsC8w.write destPath (Node.file [7] true) = fsC8w) :=
  C8_frame fsC8w ["_static/K-matrix.html"] (fsC8w.write destPath (Node.file [7] true)) (by decide)

/-- C9 (confirmed): if the path `K-matrix.html` is an existing *directory*,
the existence check succeeds and the function raises `IsADirectoryError`
instead of returning a list. -/
theorem C9_dir_source_raises (fs : FS) (w : Bool)
    (h : fs.stat kMatrixHtml = some (Node.dir w)) :
    fs.pathExists kMatrixHtml = true
    ∧ copy_julia_html_page fs = Except.error FsError.isADirectory := by
  have hex : fs.pathExists kMatrixHtml = true := by simp [FS.pathExists, h]
  have hcopy : shutilCopy fs kMatrixHtml destPath = Except.error FsError.isADirectory := by
    simp [shutilCopy, h]
  exact ⟨hex, by simp [copy_julia_html_page, hex, hcopy]⟩

/-- Filesystem state for the C9 witness: `K-matrix.html` is a directory. -/
def fsC9w : FS := ⟨[(kMatrixHtml, Node.dir true), (staticPath, Node.dir true)]⟩

/-- Witness for C9 at a concrete state. -/
theorem C9_dir_source_raises_witness :
    fsC9w.pathExists kMatrixHtml = true
    ∧ copy_julia_html_page fsC9w = Except.error FsError.isADirectory :=
  C9_dir_source_raises fsC9w true (by decide)

/-- C10 (confirmed): the function is a pure function of the filesystem state —
identical states yield identical results (returned list, raised error, and
resulting state alike), both for the helper and for the module-level call. -/
theorem C10_deterministic (fs1 fs2 : FS) (h : fs1 = fs2) :
    copy_julia_html_page fs1 = copy_julia_html_page fs2
    ∧ conf_module_call fs1 = conf_module_call fs2 := by
  subst h
  exact ⟨rfl, rfl⟩

/-- Filesystem state for the C10 witness. -/
def fsC10w : FS := ⟨[(kMatrixHtml, Node.file [8] true), (staticPath, Node.dir true)]⟩

/-- Witness for C10 at a concrete state. -/
theorem C10_deterministic_witness :
    copy_julia_html_page fsC10w = copy_julia_html_page fsC10w
    ∧ conf_module_call fsC10w = conf_module_call fsC10w :=
  C10_deterministic fsC10w fsC10w rfl

example : copy_julia_html_page ⟨[]⟩ = Except.ok ([], ⟨[]⟩) := by decide

example :
    copy_julia_html_page ⟨[(kMatrixHtml, Node.file [1, 2] true), (staticPath, Node.dir true)]⟩
      = Except.ok (["_static/K-matrix.html"],
          ⟨[(destPath, Node.file [1, 2] true),
            (kMatrixHtml, Node.file [1, 2] true), (staticPath, Node.dir true)]⟩) := by decide

example :
    copy_julia_html_page ⟨[(kMatrixHtml, Node.file [1] true)]⟩
      = Except.error FsError.fileNotFound := by decide
